import Mathlib

/-!
Verification of the electrostatic force-field pipeline of
`ppafm/cli/generateElFF.py` (the `main` orchestration script) against its
natural-language specification.

Conventions of the embedding:
  * Real-valued grid data is modelled over `ℚ` (all operations the claims
    touch are exact field arithmetic: negation, subtraction, division,
    linear interpolation).
  * A 3D scalar grid of shape `(n1+1, n2+1, n3+1)` is a function
    `Fin (n1+1) → Fin (n2+1) → Fin (n3+1) → ℚ`; where only the leading
    (z-slice) axis matters, a grid is `Fin n → ι → ℚ` with `ι` standing for
    the remaining indices (y, x and vector components).
  * The observable actions of the script (file loads, FFT convolutions, file
    saves) are recorded as an event trace mirroring the statement order of
    `main`.
  * Python runtime failures are made explicit in an error type: an
    `Exception` raised by the script itself, a `TypeError` from arithmetic
    on `None`, a `NameError` from an unbound variable.
Functions of the `ppafm` package that `main` calls but whose bodies are not
part of the sources under verification (`computeElFF`, `subtractCoreDensities`)
are modelled from the specification, as noted in their doc comments.
-/

namespace GenerateElFF

/-! ## FFT cross-correlation (spec §4.1)

`PPH.computeElFF` delegates the correlation to `ppafm.fieldFFT`, whose body is
not among the sources under verification; the energy field it produces is
modelled from the spec. -/

/-- Modelled from the spec: `ppafm.fieldFFT` / `PPH.computeElFF` (bodies not in
the verified sources) compute, for each output voxel `R`, the cross-correlation
`Energy(R) = Σ_r rho(r - R) * V(r)` with the periodic (wrap-around) index
semantics inherent to the discrete Fourier transform.  Both grids share the
shape `(n1+1, n2+1, n3+1)`. -/
def correlateEnergy (n1 n2 n3 : ℕ)
    (rho V : Fin (n1 + 1) → Fin (n2 + 1) → Fin (n3 + 1) → ℚ)
    (R1 : Fin (n1 + 1)) (R2 : Fin (n2 + 1)) (R3 : Fin (n3 + 1)) : ℚ :=
  ∑ r1 : Fin (n1 + 1), ∑ r2 : Fin (n2 + 1), ∑ r3 : Fin (n3 + 1),
    rho (r1 - R1) (r2 - R2) (r3 - R3) * V r1 r2 r3

/-- The discrete dot product `Σ_r rho(r) * V(r)` of two same-shaped grids. -/
def dotGrid (n1 n2 n3 : ℕ)
    (rho V : Fin (n1 + 1) → Fin (n2 + 1) → Fin (n3 + 1) → ℚ) : ℚ :=
  ∑ r1 : Fin (n1 + 1), ∑ r2 : Fin (n2 + 1), ∑ r3 : Fin (n3 + 1),
    rho r1 r2 r3 * V r1 r2 r3

/-- C1: at the zero-offset voxel the correlation energy is the discrete dot
product of the tip kernel and the sample potential over all voxels. -/
theorem correlateEnergy_zero_offset (n1 n2 n3 : ℕ)
    (rho V : Fin (n1 + 1) → Fin (n2 + 1) → Fin (n3 + 1) → ℚ) :
    correlateEnergy n1 n2 n3 rho V 0 0 0 = dotGrid n1 n2 n3 rho V := by
  simp [correlateEnergy, dotGrid]

/-! ## Command-line arguments and Python runtime failures

`main` (generateElFF.py) reads these options; an option declared without a
default is `None` when absent, which the embedding renders as `Option`. -/

/-- The command-line options of `generateElFF.py:main` that the pipeline logic
branches on.  `Vref` and `KPFM_sample` have no default (Python `None`);
`KPFM_tip` defaults to the token `"Fit"`. -/
structure Args where
  doDensity : Bool
  Rcore : ℚ
  tip_dens : Option String
  KPFM_sample : Option String
  KPFM_tip : String
  Vref : Option ℚ
  z0 : ℚ
  energy : Bool
deriving DecidableEq

/-- Ways a run of `main` can terminate abnormally.  `scriptException` is the
`raise Exception(...)` in the core-subtraction guard; `pyTypeError` is the
`TypeError` Python raises when `None` enters arithmetic; `pyNameError` is the
`NameError` from referencing an unbound variable.  The taxonomy names of the
spec (`InvalidDensityRequest`, `MissingReferenceVoltage`) are carried as their
own constructors so that claims phrased in the vocabulary of the spec are
statable. -/
inductive RunErr where
  | scriptException : RunErr
  | invalidDensityRequest : RunErr
  | missingReferenceVoltage : RunErr
  | pyTypeError : RunErr
  | pyNameError : RunErr
deriving DecidableEq

/-! ## Loading and negating the sample potential (generateElFF.py:60-69, 89-108)

Line 69 is `V *= -1` (eV → V sign-convention conversion), executed right after
the Hartree potential is loaded and before any convolution. -/

/-- The sample potential after line 69 (`V *= -1`): the element-wise negation
of the array loaded from the input file. -/
def loadedV {ι : Type} (Vraw : ι → ℚ) : ι → ℚ :=
  fun x => -Vraw x

/-- The potential handed to the main convolution `computeElFF(V, ...)` at
line 154: the (negated) `V` itself. -/
def mainConvPotential {ι : Type} (Vraw : ι → ℚ) : ι → ℚ :=
  loadedV Vraw

/-- Line 91, `V_v0_aux2 = V.copy()`: the zero-bias potential handed to the
second KPFM convolution `computeElFF(V_v0_aux2, ..., drho_kpfm, ...)` at
line 141. -/
def kpfmAux2 {ι : Type} (Vraw : ι → ℚ) : ι → ℚ :=
  loadedV Vraw

/-- Line 108, `dV_kpfm = V_kpfm - V_v0_aux`: the biased sample potential as
loaded (lines 100/106, with no sign conversion applied to it) minus the copy
`V_v0_aux` of the negated zero-bias potential; handed to the first KPFM
convolution at line 140. -/
def kpfmDV {ι : Type} (Vraw Vkpfm : ι → ℚ) : ι → ℚ :=
  fun x => Vkpfm x - loadedV Vraw x

/-- C2: the input Hartree-potential grid is multiplied by -1 before any
convolution uses it — the main convolution receives `(-1) * V_loaded`, and the
KPFM branch operates on this negated potential in both of its convolutions:
its zero-bias argument is `(-1) * V_loaded` and its potential difference is
formed against `(-1) * V_loaded`. -/
theorem potential_negated_before_convolutions {ι : Type} (Vraw : ι → ℚ) :
    mainConvPotential Vraw = (fun x => (-1) * Vraw x) ∧
    kpfmAux2 Vraw = (fun x => (-1) * Vraw x) ∧
    ∀ Vkpfm : ι → ℚ, kpfmDV Vraw Vkpfm = fun x => Vkpfm x - (-1) * Vraw x := by
  refine ⟨?_, ?_, ?_⟩
  · funext x; simp [mainConvPotential, loadedV]
  · funext x; simp [kpfmAux2, loadedV]
  · intro Vkpfm; funext x; simp [kpfmDV, loadedV]

/-! ## KPFM per-slice normalization (generateElFF.py:143-147)

`zpos = np.linspace(lvec[0,2]-z0, lvec[3,2]-z0, nDim[0])`, then each z-slice
`i` of the two raw KPFM convolution outputs is divided by
`Vref * (zpos[i] + 0.1)`. -/

/-- Line 144: `np.linspace(a, b, n)[i] = a + i * (b - a) / (n - 1)` with
`a = lvec[0,2] - z0` and `b = lvec[3,2] - z0`.  For `n = 1` numpy returns
`[a]`, which the formula also yields since division by zero is zero in `ℚ`. -/
def zpos (lvec0z lvec3z z0 : ℚ) (n : ℕ) (i : Fin n) : ℚ :=
  (lvec0z - z0) + (i : ℚ) * ((lvec3z - z0) - (lvec0z - z0)) / ((n : ℚ) - 1)

/-- The physical height of z-slice `i`: the linear grid of `n` heights running
from `lvec[0,2]` (origin z) to `lvec[3,2]`, endpoint inclusive — i.e. the
`zpos` of the code evaluated with `z0 = 0`. -/
def sliceHeight (lvec0z lvec3z : ℚ) (n : ℕ) (i : Fin n) : ℚ :=
  lvec0z + (i : ℚ) * (lvec3z - lvec0z) / ((n : ℚ) - 1)

/-- The loop at lines 145-147: slice `i` of a raw KPFM convolution output is
divided by `Vref * (zpos[i] + 0.1)`. -/
def kpfmNormalize {ι : Type} (Vref lvec0z lvec3z z0 : ℚ) {n : ℕ}
    (FF : Fin n → ι → ℚ) : Fin n → ι → ℚ :=
  fun i y => FF i y / (Vref * (zpos lvec0z lvec3z z0 n i + 1/10))

/-- C3: every z-slice `i` of a raw KPFM convolution output is divided by
`Vref * (z_i - z0 + 0.1)` where `z_i` is the height of slice `i`; in
particular with `Vref = 1` and `z0 = 0` the normalized output is the raw
output divided by `(z_i + 0.1)`. -/
theorem kpfm_normalization_divides_by_height {ι : Type}
    (Vref lvec0z lvec3z z0 : ℚ) {n : ℕ} (FF : Fin n → ι → ℚ)
    (i : Fin n) (y : ι) :
    kpfmNormalize Vref lvec0z lvec3z z0 FF i y
      = FF i y / (Vref * (sliceHeight lvec0z lvec3z n i - z0 + 1/10)) ∧
    kpfmNormalize 1 lvec0z lvec3z 0 FF i y
      = FF i y / (sliceHeight lvec0z lvec3z n i + 1/10) := by
  have hz : ∀ z0 : ℚ, zpos lvec0z lvec3z z0 n i
      = sliceHeight lvec0z lvec3z n i - z0 := by
    intro a
    simp only [zpos, sliceHeight]
    ring
  constructor
  · simp [kpfmNormalize, hz]
  · simp [kpfmNormalize, hz]

/-! ## Core-subtraction guard (generateElFF.py:51-55)

```
bSubstractCore = ( (args.doDensity) and (args.Rcore > 0.0) and (args.tip_dens is not None) )
if bSubstractCore:
    if args.tip_dens is None: raise Exception( " Rcore>0 but no tip density provided ! " )
```
-/

/-- Line 51: `bSubstractCore` is true only when density overlap is requested,
`Rcore > 0`, and a tip density file was supplied. -/
def bSubstractCore (a : Args) : Bool :=
  a.doDensity && decide (0 < a.Rcore) && a.tip_dens.isSome

/-- Lines 52-55: the guard that is supposed to reject a core-subtraction
request without a tip density, before the large density files are loaded.  The
`raise` at line 53 maps to `RunErr.invalidDensityRequest`. -/
def coreSubtractionGuard (a : Args) : Except RunErr Unit :=
  if bSubstractCore a then
    if a.tip_dens.isNone then Except.error RunErr.invalidDensityRequest
    else Except.ok ()
  else Except.ok ()

/-- The failing configuration for claim C4: `--doDensity`, `Rcore = 1`, and no
`--tip_dens` (the remaining options at their defaults). -/
def argsCoreNoTipDens : Args :=
  ⟨true, 1, none, none, "Fit", none, 0, false⟩

/-- C4 (code bug): with density overlap requested and `Rcore > 0` but no tip
density, the guard does not fail — `bSubstractCore` already requires a tip
density, so the `raise` at line 53 is unreachable and the run proceeds,
silently skipping core subtraction. -/
theorem core_subtraction_guard_never_raises :
    coreSubtractionGuard argsCoreNoTipDens = Except.ok () ∧
    ∀ a : Args, coreSubtractionGuard a ≠ Except.error RunErr.invalidDensityRequest := by
  constructor
  · rfl
  · intro a
    cases h : a.tip_dens <;>
      simp [coreSubtractionGuard, bSubstractCore, h]

/-! ## Tip kernel from a loaded density (generateElFF.py:78-87)

```
rho_tip, lvec_tip, nDim_tip, head_tip = io.loadXSF( args.tip_dens )
if bSubstractCore:
    PPH.subtractCoreDensities( rho_tip, lvec_tip, ... )
PPU.params[tip] = -rho_tip     (the tip key, quoted in the source)
```
-/

/-- Modelled from the spec: `PPH.subtractCoreDensities` (body not among the
verified sources) subtracts spherically symmetric core-charge density profiles
of the boundary-touching atoms and their periodic images from the loaded tip
density; the summed core profile grid is abstracted as the parameter `core`.
The call at generateElFF.py:85 passes `rho_tip` and discards the return value,
so the corrected grid is propagated through `rho_tip` itself (in place). -/
def subtractCoreDensities {ι : Type} (rho core : ι → ℚ) : ι → ℚ :=
  fun x => rho x - core x

/-- Lines 83-87: the tip kernel (the `tip` entry of `PPU.params`) built from a
loaded tip density — optionally core-subtract in place (lines 83-85), then
negate (line 87, which assigns `-rho_tip` to the `tip` entry). -/
def tipKernel {ι : Type} (bSub : Bool) (rhoLoaded core : ι → ℚ) : ι → ℚ :=
  let rho1 := if bSub then subtractCoreDensities rhoLoaded core else rhoLoaded
  fun x => -rho1 x

/-- Follows the words of the spec, for comparison with `tipKernel` (claim C8): if
`subtractCoreDensities` returned a corrected copy instead of modifying its
input, the call at line 85 — which discards the return value — would leave
`rho_tip` unchanged, and the kernel of line 87 would be the negation of the
uncorrected loaded density. -/
def tipKernelSpecCopy {ι : Type} (_bSub : Bool) (rhoLoaded _core : ι → ℚ) : ι → ℚ :=
  fun x => -rhoLoaded x

/-- C5: the kernel passed into the convolution is the element-wise negation of
the (optionally core-subtracted) loaded tip density. -/
theorem tipKernel_is_negated_corrected_density {ι : Type}
    (rhoLoaded core : ι → ℚ) (x : ι) :
    tipKernel true rhoLoaded core x = -(rhoLoaded x - core x) ∧
    tipKernel false rhoLoaded core x = -rhoLoaded x := by
  constructor <;> simp [tipKernel, subtractCoreDensities]

/-- C8 (counterexample): under the copy contract the effective kernel would
differ from the kernel the pipeline actually documents (the negated corrected
density) at a concrete input — `subtractCoreDensities` cannot return a
corrected copy that line 85 discards and still have line 87 produce a
core-corrected kernel. -/
theorem tipKernel_copy_contract_refuted :
    tipKernelSpecCopy true (fun _ : Fin 1 => (1 : ℚ)) (fun _ => 1) 0
      ≠ tipKernel true (fun _ : Fin 1 => (1 : ℚ)) (fun _ => 1) 0 := by
  simp [tipKernel, tipKernelSpecCopy, subtractCoreDensities]

/-- C8 (amended): core subtraction acts in place — the effective kernel is the
negation of the corrected density and exceeds the kernel the copy contract
would yield by exactly the core profile. -/
theorem subtractCore_in_place_not_copy {ι : Type} (rhoLoaded core : ι → ℚ)
    (x : ι) :
    tipKernel true rhoLoaded core x
      = tipKernelSpecCopy true rhoLoaded core x + core x ∧
    subtractCoreDensities rhoLoaded core x = rhoLoaded x - core x := by
  constructor
  · simp [tipKernel, tipKernelSpecCopy, subtractCoreDensities]; ring
  · rfl

/-! ## KPFM branch: reference voltages and the biased tip (generateElFF.py:89-147) -/

/-- The Python idiom `s.lower().endswith(pat)` for an ASCII pattern: suffix
test on the lower-cased character list. -/
def endsWithLower (s pat : String) : Bool :=
  List.isSuffixOf pat.data (s.data.map Char.toLower)

/-- The file-extension dispatch `args.X.lower().endswith(".xsf")` /
`.endswith(".cube")` used at lines 96/102 and 111/116. -/
def endsWithXsfOrCube (s : String) : Bool :=
  endsWithLower s ".xsf" || endsWithLower s ".cube"

/-- Line 121: the symbolic analytic tip-model tokens — Fit, fit, dipole, pz —
against which `args.KPFM_tip` is tested by set membership. -/
def analyticTipTokens : List String :=
  ["Fit", "fit", "dipole", "pz"]

/-- Lines 123-134: the `probeType`-keyed table of multipole slope (the `pz`
coefficient of `drho_kpfm`) and Gaussian decay `sigma`; the keys are element
numbers as strings (8 = CO tip, 47 = Ag, 54 = Xe). -/
def probeTypePolarization (probeType : String) : Option (ℚ × ℚ) :=
  if probeType = "8" then some (-(45/1000), 48/100)
  else if probeType = "47" then some (-(21875/100000), 7/10)
  else if probeType = "54" then some (-(250/1000), 67/100)
  else none

/-- Lines 96-106: inside the KPFM branch, `Vref_s = args.Vref` is bound only
in the `.xsf`/`.cube` branches of the bias-sample dispatch; with any other
path `Vref_s` stays unbound (outer `none`), and the user-given `--Vref` itself
may be Python `None` (inner `none`). -/
def vrefSample (samplePath : String) (userVref : Option ℚ) : Option (Option ℚ) :=
  if endsWithXsfOrCube samplePath then some userVref else none

/-- The bias-derivative tip representation `drho_kpfm` produced at
lines 110-134: either a density-difference grid (file branch) or a `pz`
multipole slope paired with its decay `sigma` (analytic branch). -/
inductive DRho (ι : Type) where
  | grid : (ι → ℚ) → DRho ι
  | multipole : ℚ → ℚ → DRho ι

/-- Lines 110-134: the KPFM tip dispatch, returning the pair
`(Vref_t, drho_kpfm)`.  With a file-based `KPFM_tip` (`.xsf`/`.cube`) the
script sets `Vref_t = args.Vref` and evaluates
`rho_tip_v0_aux = rho_tip.copy()` — `rho_tip` is bound only when `--tip_dens`
was supplied (line 81), otherwise that reference raises `NameError` — then
`drho_kpfm = rho_tip_kpfm - rho_tip_v0_aux`.  With a symbolic token it sets
`Vref_t = -0.1` and takes the slope and `sigma` from the `probeType` table; an
unkeyed `probeType` leaves `drho_kpfm` unbound (`NameError` at its use,
line 141), as does a `KPFM_tip` that is neither a grid file nor a token. -/
def kpfmTipBranch {ι : Type} (kpfmTip : String) (rho_tip : Option (ι → ℚ))
    (rhoTipKpfm : ι → ℚ) (probeType : String) (userVref : Option ℚ) :
    Except RunErr (Option ℚ × DRho ι) :=
  if endsWithXsfOrCube kpfmTip then
    match rho_tip with
    | none => Except.error RunErr.pyNameError
    | some rho0 =>
        Except.ok (userVref, DRho.grid (fun x => rhoTipKpfm x - rho0 x))
  else if kpfmTip ∈ analyticTipTokens then
    match probeTypePolarization probeType with
    | some (slope, sigma) =>
        Except.ok (some (-(1/10)), DRho.multipole slope sigma)
    | none => Except.error RunErr.pyNameError
  else Except.error RunErr.pyNameError

/-- Lines 145-147 with a possibly unbound or `None` reference voltage:
`FF[i] / (Vref * (zpos[i] + 0.1))` raises `NameError` if `Vref` was never
bound, `TypeError` if it is Python `None`, and otherwise performs the
per-slice normalization. -/
def kpfmNormalizeChecked {ι : Type} (vref : Option (Option ℚ))
    (lvec0z lvec3z z0 : ℚ) {n : ℕ} (FF : Fin n → ι → ℚ) :
    Except RunErr (Fin n → ι → ℚ) :=
  match vref with
  | none => Except.error RunErr.pyNameError
  | some none => Except.error RunErr.pyTypeError
  | some (some v) => Except.ok (kpfmNormalize v lvec0z lvec3z z0 FF)

/-- A symbolic analytic tip token never looks like a grid file. -/
theorem analyticToken_not_grid_file (s : String) (h : s ∈ analyticTipTokens) :
    endsWithXsfOrCube s = false := by
  fin_cases h <;> decide

/-- C6 (counterexample): a KPFM run with an `.xsf` bias sample and `--Vref`
unset reaches the per-slice normalization and dies there with a Python
`TypeError` (`None` entering arithmetic), not with a `MissingReferenceVoltage`
error. -/
theorem missing_vref_counterexample :
    kpfmNormalizeChecked (vrefSample "bias.xsf" none) 0 1 0
        (fun (_ : Fin 2) (_ : Fin 1) => (1 : ℚ))
      = Except.error RunErr.pyTypeError ∧
    RunErr.pyTypeError ≠ RunErr.missingReferenceVoltage := by
  have h : endsWithXsfOrCube "bias.xsf" = true := by decide
  exact ⟨by simp [kpfmNormalizeChecked, vrefSample, h], by decide⟩

/-- C6 (amended): whenever the KPFM branch runs with a grid-file bias sample
and `--Vref` unset, the run aborts — but with an uncaught `TypeError` raised
by the normalization arithmetic after both KPFM convolutions have already run,
not with a descriptive `MissingReferenceVoltage`; with `--Vref` set the
normalization succeeds. -/
theorem missing_vref_aborts_with_type_error {ι : Type} (samplePath : String)
    (h : endsWithXsfOrCube samplePath = true) (lvec0z lvec3z z0 : ℚ) {n : ℕ}
    (FF : Fin n → ι → ℚ) :
    kpfmNormalizeChecked (vrefSample samplePath none) lvec0z lvec3z z0 FF
      = Except.error RunErr.pyTypeError ∧
    ∀ v : ℚ,
      kpfmNormalizeChecked (vrefSample samplePath (some v)) lvec0z lvec3z z0 FF
        = Except.ok (kpfmNormalize v lvec0z lvec3z z0 FF) := by
  constructor
  · simp [kpfmNormalizeChecked, vrefSample, h]
  · intro v; simp [kpfmNormalizeChecked, vrefSample, h]

/-- Witness for `missing_vref_aborts_with_type_error` at the bias sample file
`bias.xsf` on a 1×1 grid. -/
theorem missing_vref_aborts_with_type_error_witness :
    endsWithXsfOrCube "bias.xsf" = true ∧
    (kpfmNormalizeChecked (vrefSample "bias.xsf" none) 0 1 0
        (fun (_ : Fin 1) (_ : Fin 1) => (1 : ℚ))
      = Except.error RunErr.pyTypeError ∧
    ∀ v : ℚ,
      kpfmNormalizeChecked (vrefSample "bias.xsf" (some v)) 0 1 0
          (fun (_ : Fin 1) (_ : Fin 1) => (1 : ℚ))
        = Except.ok (kpfmNormalize v 0 1 0 (fun _ _ => 1))) :=
  ⟨by decide,
    missing_vref_aborts_with_type_error "bias.xsf" (by decide) 0 1 0
      (fun _ _ => 1)⟩

/-- C9: with a symbolic analytic tip token, the reference voltage normalizing
the `V0 * drho` sensitivity map is the fixed constant `-0.1` whatever `--Vref`
the user supplied, and the multipole slope and `sigma` are the values of the
`probeType`-keyed internal table. -/
theorem analytic_tip_vref_fixed {ι : Type} (kpfmTip : String)
    (h : kpfmTip ∈ analyticTipTokens) (rho_tip : Option (ι → ℚ))
    (rhoTipKpfm : ι → ℚ) (probeType : String) (slope sigma : ℚ)
    (hp : probeTypePolarization probeType = some (slope, sigma))
    (userVref : Option ℚ) :
    kpfmTipBranch kpfmTip rho_tip rhoTipKpfm probeType userVref
      = Except.ok (some (-(1/10)), DRho.multipole slope sigma) ∧
    probeTypePolarization "8" = some (-(45/1000), 48/100) ∧
    probeTypePolarization "47" = some (-(21875/100000), 7/10) ∧
    probeTypePolarization "54" = some (-(250/1000), 67/100) := by
  refine ⟨?_, by simp [probeTypePolarization], by simp [probeTypePolarization],
    by simp [probeTypePolarization]⟩
  simp [kpfmTipBranch, analyticToken_not_grid_file kpfmTip h, h, hp]

/-- Witness for `analytic_tip_vref_fixed`: token `Fit` with the Ag probe
(`probeType` 47) and a user-supplied `--Vref 7` that the result ignores. -/
theorem analytic_tip_vref_fixed_witness :
    ("Fit" ∈ analyticTipTokens) ∧
    probeTypePolarization "47" = some (-(21875/100000), 7/10) ∧
    (kpfmTipBranch "Fit" (none : Option (Fin 1 → ℚ)) (fun _ => 0) "47" (some 7)
        = Except.ok (some (-(1/10)), DRho.multipole (-(21875/100000)) (7/10)) ∧
    probeTypePolarization "8" = some (-(45/1000), 48/100) ∧
    probeTypePolarization "47" = some (-(21875/100000), 7/10) ∧
    probeTypePolarization "54" = some (-(250/1000), 67/100)) :=
  ⟨by decide, by simp [probeTypePolarization],
    analytic_tip_vref_fixed "Fit" (by decide) none (fun _ => 0) "47"
      (-(21875/100000)) (7/10) (by simp [probeTypePolarization]) (some 7)⟩

/-- C10: a file-based biased tip density (`--KPFM_tip` ending in
`.xsf`/`.cube`) requires `--tip_dens`: without it the branch references the
unbound `rho_tip` and aborts with a Python `NameError` — not a descriptive
domain error — while with `--tip_dens` supplied it produces the
density-difference grid. -/
theorem file_kpfm_tip_requires_tip_dens {ι : Type} (kpfmTip : String)
    (h : endsWithXsfOrCube kpfmTip = true) (rhoTipKpfm : ι → ℚ)
    (probeType : String) (userVref : Option ℚ) :
    kpfmTipBranch kpfmTip (none : Option (ι → ℚ)) rhoTipKpfm probeType userVref
      = Except.error RunErr.pyNameError ∧
    RunErr.pyNameError ≠ RunErr.invalidDensityRequest ∧
    RunErr.pyNameError ≠ RunErr.missingReferenceVoltage ∧
    ∀ rho0 : ι → ℚ,
      kpfmTipBranch kpfmTip (some rho0) rhoTipKpfm probeType userVref
        = Except.ok (userVref, DRho.grid (fun x => rhoTipKpfm x - rho0 x)) := by
  refine ⟨?_, by decide, by decide, ?_⟩
  · simp [kpfmTipBranch, h]
  · intro rho0; simp [kpfmTipBranch, h]

/-- Witness for `file_kpfm_tip_requires_tip_dens` at `--KPFM_tip tip.xsf`. -/
theorem file_kpfm_tip_requires_tip_dens_witness :
    endsWithXsfOrCube "tip.xsf" = true ∧
    (kpfmTipBranch "tip.xsf" (none : Option (Fin 1 → ℚ)) (fun _ => 2) "8" none
      = Except.error RunErr.pyNameError ∧
    RunErr.pyNameError ≠ RunErr.invalidDensityRequest ∧
    RunErr.pyNameError ≠ RunErr.missingReferenceVoltage ∧
    ∀ rho0 : Fin 1 → ℚ,
      kpfmTipBranch "tip.xsf" (some rho0) (fun _ => 2) "8" none
        = Except.ok (none, DRho.grid (fun x => (fun _ => (2 : ℚ)) x - rho0 x))) :=
  ⟨by decide,
    file_kpfm_tip_requires_tip_dens "tip.xsf" (by decide) (fun _ => 2) "8" none⟩

/-! ## Observable action order of `main` (generateElFF.py:57-160) -/

/-- An observable action of `main`: a grid-file load, an FFT convolution
(`computeElFF` call), or an output-file write. -/
inductive Event where
  | load : String → Event
  | compute : String → Event
  | save : String → Event
deriving DecidableEq

/-- Whether an event is an output-file write. -/
def isSave : Event → Bool
  | Event.save _ => true
  | _ => false

/-- Whether an event is an FFT convolution. -/
def isCompute : Event → Bool
  | Event.compute _ => true
  | _ => false

/-- The ordered observable actions of `main`, in the statement order of the
script, as a function of whether the KPFM branch runs (`--KPFM_sample` given,
line 89), whether a tip density file is given (line 78), and whether the
energy output was requested: the input loads (lines 57-81), then — in a KPFM
run — the bias loads (lines 100-119), the two KPFM convolutions
(lines 140-141) and the two KPFM map writes (lines 150-151), then the main
convolution (line 154) and the output writes (lines 158-160). -/
def mainTrace (kpfmOn hasTipDens energyOn : Bool) : List Event :=
  [Event.load "input"]
  ++ (if hasTipDens then [Event.load "tip_dens"] else [])
  ++ (if kpfmOn then
        [Event.load "KPFM_sample", Event.load "KPFM_tip",
         Event.compute "FFkpfm_t0sV", Event.compute "FFkpfm_tVs0",
         Event.save "FFkpfm_t0sV", Event.save "FFkpfm_tVs0"]
      else [])
  ++ [Event.compute "FFel", Event.save "FFel"]
  ++ (if energyOn then [Event.save "Eel"] else [])

/-- Output emission only after every large computation: no convolution event
follows any write event in the trace. -/
def savesAfterAllComputes : List Event → Bool
  | [] => true
  | e :: rest =>
      (!isSave e || rest.all (fun x => !isCompute x)) && savesAfterAllComputes rest

/-- C7 (counterexample): in a KPFM run the two sensitivity maps are written
before the main convolution runs, so output emission is not deferred until
every large computation has succeeded — a failure of the main convolution
would leave the two KPFM files behind as partial output. -/
theorem kpfm_saves_precede_main_convolution :
    savesAfterAllComputes (mainTrace true true true) = false ∧
    (mainTrace true true true).indexOf (Event.save "FFkpfm_t0sV")
      < (mainTrace true true true).indexOf (Event.compute "FFel") := by
  decide

/-- C7 (amended): in a run without the KPFM branch every write follows every
convolution; in a KPFM run the two sensitivity maps are computed and written
before the main convolution, while the `FFel` force field is written only
after the main convolution. -/
theorem output_write_order :
    (∀ hd en : Bool, savesAfterAllComputes (mainTrace false hd en) = true) ∧
    (∀ hd en : Bool,
      (mainTrace true hd en).indexOf (Event.compute "FFkpfm_tVs0")
        < (mainTrace true hd en).indexOf (Event.save "FFkpfm_t0sV") ∧
      (mainTrace true hd en).indexOf (Event.save "FFkpfm_tVs0")
        < (mainTrace true hd en).indexOf (Event.compute "FFel") ∧
      (mainTrace true hd en).indexOf (Event.compute "FFel")
        < (mainTrace true hd en).indexOf (Event.save "FFel")) := by
  decide

end GenerateElFF
